import Mathlib

/-!
Verification of the Pagure project client (`ogr/services/pagure/project.py`).

The client is embedded shallowly: the forge (network) is an oracle, a
structure of pure response functions keyed by the request URL, and every
client method that talks to the forge returns its value together with the
list of requests it issued.  URLs are modelled as lists of path segments.
Python `Optional` arguments become `Option`, raising becomes `Except`,
and Python dicts coming from JSON become association lists in insertion
order.
-/

namespace OgrPagure

/-- A git tag: name plus commit SHA (`ogr.abstract.GitTag`). -/
structure GitTag where
  name : String
  commit_sha : String
  deriving DecidableEq, Repr

/-- The exception kinds the client raises.  `fileNotFoundError` carries an
optional wrapped cause (the `OurPagureRawRequest` payload). -/
inductive PyError where
  | attributeError
  | ogrException (msg : String)
  | pagureAPIException (msg : String)
  | operationNotSupported (msg : String)
  | fileNotFoundError (msg : String) (cause : Option String)
  deriving DecidableEq, Repr

/-- A JSON-ish value appearing in request payloads. -/
inductive PV where
  | s (v : String)
  | i (v : Int)
  | b (v : Bool)
  | null
  deriving DecidableEq, Repr

/-- A request issued to the forge.  Query parameters are elided; the data
payload of a POST is kept because the spec talks about its keys. -/
inductive Request where
  | get (url : List String)
  | getRaw (url : List String)
  | post (url : List String) (data : List (String × PV))
  deriving DecidableEq, Repr

/-- Modelled from the spec: the raw-response object
(`ogr.utils.RequestResponse`) as far as this module looks at it:
ok flag, HTTP reason and (already decoded) content. -/
structure RequestResponse where
  ok : Bool
  reason : String
  content : String
  deriving DecidableEq, Repr

/-- Outcome of a raw call: either the transport raised
`OurPagureRawRequest` (carrying a message) or it produced a possibly
absent response. -/
inductive RawOutcome where
  | raised (ex : String)
  | resp (r : Option RequestResponse)
  deriving DecidableEq, Repr

/-- The `parent` object inside a project-info response. -/
structure ParentInfo where
  namespace_ : Option String
  deriving DecidableEq, Repr

/-- The `access_users` object of a project-info response. -/
structure AccessUsers where
  admin : List String
  commit : List String
  ticket : List String
  owner : List String
  deriving DecidableEq, Repr

/-- The parts of a project-info response this module reads:
`info["user"]["name"]`, `info["parent"]` and `info["access_users"]`. -/
structure ProjectInfo where
  user_name : String
  parent : Option ParentInfo
  access_users : AccessUsers
  deriving DecidableEq, Repr

/-- One entry of the `projects` search response used by `get_forks`. -/
structure ForkEntry where
  name : String
  namespace_ : Option String
  user_name : String
  deriving DecidableEq, Repr

/-- The `flag` object of a commit-flag response. -/
structure FlagDict where
  commit_hash : String
  comment : String
  status : String
  username : String
  url : String
  deriving DecidableEq, Repr

/-- A commit-flag POST response: the `flag` object plus the top-level
`uid`. -/
structure FlagResponse where
  flag : FlagDict
  uid : String
  deriving DecidableEq, Repr

/-- `ogr.abstract.CommitFlag` as constructed by this module. -/
structure CommitFlag where
  commit : String
  comment : String
  state : String
  context : String
  url : String
  uid : Option String
  deriving DecidableEq, Repr

/-- `ogr.abstract.CommitComment` (never actually constructed here). -/
structure CommitComment where
  sha : String
  comment : String
  author : String
  deriving DecidableEq, Repr

/-- A created pull request, abstract: its construction lives in
`PagurePullRequest`, outside this module. -/
structure PullRequest where
  pr_id : Nat
  deriving DecidableEq, Repr

/-- The project handle (`PagureProject.__init__` fields).  The service is
passed separately to every method, so it is not a field here; `read_only`
is copied from the service at construction, as in `__init__`. -/
structure PagureProject where
  repo : String
  namespace_ : Option String
  username : Option String
  is_fork : Bool
  read_only : Bool
  deriving DecidableEq, Repr

/-- The forge service together with its oracle: pure functions answering
each kind of request this module issues, keyed by the request URL
(segment list).  `authUsername` models `service.user.get_username()`;
`pr_create` models `PagurePullRequest.create`, which lives outside this
module, as an abstract operation returning the created pull request and
whatever requests it issues. -/
structure PagureService where
  apiBase : List String
  authUsername : String
  read_only : Bool
  infoAt : List String → ProjectInfo
  okAt : List String → Bool
  forksFor : String → List ForkEntry
  tagsAt : List String → List (String × String)
  rawAt : List String → RawOutcome
  flagResponseAt : List String → List (String × PV) → FlagResponse
  pr_create : PagureProject → String → String → String → String → PullRequest × List Request

/-- Modelled from the spec: the read-only substitutes
(`ogr.read_only.GitProjectReadOnly`, outside this module).  They are
no-ops, so each is an abstract pure function of the original call's
arguments. -/
structure GitProjectReadOnly where
  create_pr : PagureProject → String → String → String → String → Option String → PullRequest
  fork_create : PagureProject → PagureProject
  set_commit_status :
    PagureProject → String → String → String → String → String →
      Option Int → Option String → CommitFlag

/-- Modelled from the spec: `PagureService.get_api_url` (outside this
module) joins the given non-absent path parts, prefixed with the API
endpoint base path when requested. -/
def get_api_url (S : PagureService) (parts : List (Option String))
    (add_api_endpoint_part : Bool) : List String :=
  (if add_api_endpoint_part then S.apiBase else []) ++ parts.filterMap id

/-- `PagureProject._user`: the handle's username, resolved from the
authenticated session when unset. -/
def PagureProject.user_ (p : PagureProject) (S : PagureService) : String :=
  p.username.getD S.authUsername

/-- `PagureProject._get_project_url`: prepend `["fork", username]` when
the handle is a fork and the caller asked for the fork part, then let the
service join fork part, namespace, repo and the extra segments. -/
def get_project_url (S : PagureService) (p : PagureProject) (args : List String)
    (add_fork_part : Bool) (add_api_endpoint_part : Bool) : List String :=
  let additional_parts : List String :=
    if p.is_fork && add_fork_part then ["fork", p.user_ S] else []
  get_api_url S
    (additional_parts.map some ++ [p.namespace_, some p.repo] ++ args.map some)
    add_api_endpoint_part

/-- `PagureProject.__init__` invoked with an explicit service:
`read_only` is copied from the service. -/
def PagureProject.fromService (S : PagureService) (repo : String)
    (namespace_ : Option String) (username : Option String) (is_fork : Bool) :
    PagureProject :=
  ⟨repo, namespace_, username, is_fork, S.read_only⟩

/-- `_construct_fork_project`: same repo and namespace, the resolved
username, `is_fork = true`. -/
def construct_fork_project (S : PagureService) (p : PagureProject) : PagureProject :=
  PagureProject.fromService S p.repo p.namespace_ (some (p.user_ S)) true

/-- `get_project_info`: GET on the project URL. -/
def get_project_info (S : PagureService) (p : PagureProject) :
    ProjectInfo × List Request :=
  let url := get_project_url S p [] true true
  (S.infoAt url, [Request.get url])

/-- `exists`: raw GET on the project URL, `response.ok`. -/
def exists_ (S : PagureService) (p : PagureProject) : Bool × List Request :=
  let url := get_project_url S p [] true true
  (S.okAt url, [Request.getRaw url])

/-- `get_is_fork_from_api`: truthiness of `info["parent"]`. -/
def get_is_fork_from_api (S : PagureService) (p : PagureProject) :
    Bool × List Request :=
  let (info, l) := get_project_info S p
  (info.parent.isSome, l)

/-- The `parent` property: when the info reports a parent, a fresh
non-fork handle on the parent's namespace and the same repo, else
`none`.  The second `get_project_info` call of the source hits the same
URL, hence the same oracle answer. -/
def parent (S : PagureService) (p : PagureProject) :
    Option PagureProject × List Request :=
  let (isF, l1) := get_is_fork_from_api S p
  if isF then
    let (info, l2) := get_project_info S p
    (some (PagureProject.fromService S p.repo (info.parent.bind ParentInfo.namespace_)
        none false),
      l1 ++ l2)
  else (none, l1)

/-- `is_forked`: `bool(f.exists() and f.parent.exists())` on the would-be
fork handle `f`.  When `f.exists()` holds but `f.parent` is `None`,
Python evaluates `None.exists()` and raises `AttributeError`. -/
def is_forked (S : PagureService) (p : PagureProject) :
    Except PyError Bool × List Request :=
  let f := construct_fork_project S p
  let (fex, l1) := exists_ S f
  if fex then
    let (par, l2) := parent S f
    match par with
    | some pp =>
        let (pex, l3) := exists_ S pp
        (Except.ok pex, l1 ++ l2 ++ l3)
    | none => (Except.error PyError.attributeError, l1 ++ l2)
  else (Except.ok false, l1)

/-- `who_can_close_issue`: union of the admin, commit, ticket and owner
user lists of the project info. -/
def who_can_close_issue (S : PagureService) (p : PagureProject) :
    Finset String × List Request :=
  let (project, l) := get_project_info S p
  (project.access_users.admin.toFinset ∪ project.access_users.commit.toFinset ∪
      project.access_users.ticket.toFinset ∪ project.access_users.owner.toFinset,
    l)

/-- `who_can_merge_pr`: union of the admin, commit and owner user lists
of the project info. -/
def who_can_merge_pr (S : PagureService) (p : PagureProject) :
    Finset String × List Request :=
  let (project, l) := get_project_info S p
  (project.access_users.admin.toFinset ∪ project.access_users.commit.toFinset ∪
      project.access_users.owner.toFinset,
    l)

/-- `get_forks`: query the `projects` endpoint (fork pattern search) and
map each entry to a fork-flagged handle. -/
def get_forks (S : PagureService) (p : PagureProject) :
    List PagureProject × List Request :=
  let forks_url := get_api_url S [some "projects"] true
  ((S.forksFor p.repo).map fun f =>
      PagureProject.fromService S f.name f.namespace_ (some f.user_name) true,
    [Request.get forks_url])

/-- Python substring containment: `needle in hay`. -/
def strHasSub (hay needle : String) : Bool :=
  (List.range (hay.length + 1)).any fun i =>
    (hay.data.drop i).take needle.length == needle.data

/-- The scan loop of `get_fork`: walk the fork list, fetch each fork's
info, return the first fork whose owner name contains the user as a
substring (early return, so later forks are not queried). -/
def findUserFork (S : PagureService) (user : String) :
    List PagureProject → Option PagureProject × List Request
  | [] => (none, [])
  | f :: rest =>
      let (fork_info, l) := get_project_info S f
      if strHasSub fork_info.user_name user then (some f, l)
      else
        let (r, l2) := findUserFork S user rest
        (r, l ++ l2)

/-- `fork_create` with its `if_readonly` decorator: read-only clients get
the substitute's result and no request; otherwise POST to `<base>/fork`
with `{repo, namespace, wait}` and return a fresh fork handle. -/
def fork_create (RO : GitProjectReadOnly) (S : PagureService) (p : PagureProject) :
    PagureProject × List Request :=
  if p.read_only then (RO.fork_create p, [])
  else
    let request_url := get_api_url S [some "fork"] true
    let data : List (String × PV) :=
      [("repo", PV.s p.repo),
       ("namespace", (p.namespace_.map PV.s).getD PV.null),
       ("wait", PV.b true)]
    (construct_fork_project S p, [Request.post request_url data])

/-- `create_pr` with its `if_readonly` decorator: read-only clients get
the substitute's result and no request; otherwise delegate to
`PagurePullRequest.create` (abstract, `fork_username` is dropped as in
the source). -/
def create_pr (RO : GitProjectReadOnly) (S : PagureService) (p : PagureProject)
    (title body target_branch source_branch : String)
    (fork_username : Option String) : PullRequest × List Request :=
  if p.read_only then
    (RO.create_pr p title body target_branch source_branch fork_username, [])
  else S.pr_create p title body target_branch source_branch

/-- `get_fork`: reject forks, scan existing forks for the user's one,
else probe via `is_forked` (whose `AttributeError` propagates) and either
create, skip, or construct the handle directly. -/
def get_fork (RO : GitProjectReadOnly) (S : PagureService) (p : PagureProject)
    (create : Bool) : Except PyError (Option PagureProject) × List Request :=
  if p.is_fork then
    (Except.error (PyError.ogrException "Cannot create fork from fork."), [])
  else
    let (forks, l1) := get_forks S p
    let (found, l2) := findUserFork S (p.user_ S) forks
    match found with
    | some fork => (Except.ok (some fork), l1 ++ l2)
    | none =>
        let (probe, l3) := is_forked S p
        match probe with
        | Except.error e => (Except.error e, l1 ++ l2 ++ l3)
        | Except.ok forked =>
            if !forked then
              if create then
                let (f, l4) := fork_create RO S p
                (Except.ok (some f), l1 ++ l2 ++ l3 ++ l4)
              else (Except.ok none, l1 ++ l2 ++ l3)
            else (Except.ok (some (construct_fork_project S p)), l1 ++ l2 ++ l3)

/-- `get_tags`: GET `git/tags` (with commits) and map the name → SHA
pairs, in response order, to `GitTag`s. -/
def get_tags (S : PagureService) (p : PagureProject) :
    List GitTag × List Request :=
  let url := get_project_url S p ["git", "tags"] true true
  ((S.tagsAt url).map fun nc => GitTag.mk nc.1 nc.2, [Request.get url])

/-- `get_tags_dict`: same response, as a name-keyed mapping (association
list in response order; JSON object keys are distinct). -/
def get_tags_dict (S : PagureService) (p : PagureProject) :
    List (String × GitTag) × List Request :=
  let url := get_project_url S p ["git", "tags"] true true
  ((S.tagsAt url).map fun nc => (nc.1, GitTag.mk nc.1 nc.2), [Request.get url])

/-- `get_sha_from_tag`: look the tag up in `get_tags_dict()`; raise
`PagureAPIException` when absent, else return its commit SHA. -/
def get_sha_from_tag (S : PagureService) (p : PagureProject) (tag_name : String) :
    Except PyError String × List Request :=
  let (tags_dict, l) := get_tags_dict S p
  match tags_dict.lookup tag_name with
  | none =>
      (Except.error (PyError.pagureAPIException ("Tag " ++ tag_name ++ " not found.")),
        l)
  | some t => (Except.ok t.commit_sha, l)

/-- `get_file_content`: raw GET on `raw/<ref>/f/<path>` (no API endpoint
part).  An absent response or reason `"NOT FOUND"` raises
`FileNotFoundError`; a raised `OurPagureRawRequest` is caught and
re-raised as `FileNotFoundError` wrapping the cause; otherwise the
decoded content is returned. -/
def get_file_content (S : PagureService) (p : PagureProject) (path : String)
    (ref : String) : Except PyError String × List Request :=
  let url := get_project_url S p ["raw", ref, "f", path] true false
  match S.rawAt url with
  | RawOutcome.raised ex =>
      (Except.error (PyError.fileNotFoundError
          ("Problem with getting file " ++ path ++ " on " ++ ref) (some ex)),
        [Request.getRaw url])
  | RawOutcome.resp none =>
      (Except.error (PyError.fileNotFoundError
          ("File " ++ path ++ " on " ++ ref ++ " not found") none),
        [Request.getRaw url])
  | RawOutcome.resp (some result) =>
      if result.reason = "NOT FOUND" then
        (Except.error (PyError.fileNotFoundError
            ("File " ++ path ++ " on " ++ ref ++ " not found") none),
          [Request.getRaw url])
      else (Except.ok result.content, [Request.getRaw url])

/-- `commit_comment`: unconditionally raises `OperationNotSupported`. -/
def commit_comment (commit : String) (body : String) (filename : Option String)
    (row : Option Int) : Except PyError CommitComment :=
  Except.error (PyError.operationNotSupported
    "Commit comments are not supported on Pagure.")

/-- `_commit_status_from_pagure_dict`: map a flag object (plus an
optional uid) to a `CommitFlag`. -/
def commit_status_from_pagure_dict (status_dict : FlagDict) (uid : Option String) :
    CommitFlag :=
  CommitFlag.mk status_dict.commit_hash status_dict.comment status_dict.status
    status_dict.username status_dict.url uid

/-- Python truthiness of an `Optional[int]`: `if percent:`. -/
def pyTruthyInt : Option Int → Bool
  | none => false
  | some n => n != 0

/-- Python truthiness of an `Optional[str]`: `if uid:`. -/
def pyTruthyStr : Option String → Bool
  | none => false
  | some s => s != ""

/-- The POST payload built by `set_commit_status`: the four mandatory
keys, then `percent` and `uid` appended only when truthy. -/
def set_commit_status_data (state target_url description context : String)
    (percent : Option Int) (uid : Option String) : List (String × PV) :=
  let data : List (String × PV) :=
    [("username", PV.s context), ("comment", PV.s description),
     ("url", PV.s target_url), ("status", PV.s state)]
  let data :=
    match percent with
    | some pc => if pc != 0 then data ++ [("percent", PV.i pc)] else data
    | none => data
  match uid with
  | some u => if u != "" then data ++ [("uid", PV.s u)] else data
  | none => data

/-- `set_commit_status` with its `if_readonly` decorator: read-only
clients get the substitute's result and no request; otherwise POST the
payload to `c/<commit>/flag` and build the `CommitFlag` from the
response's `flag` object and top-level `uid`. -/
def set_commit_status (RO : GitProjectReadOnly) (S : PagureService)
    (p : PagureProject) (commit state target_url description context : String)
    (percent : Option Int) (uid : Option String) : CommitFlag × List Request :=
  if p.read_only then
    (RO.set_commit_status p commit state target_url description context percent uid,
      [])
  else
    let data := set_commit_status_data state target_url description context percent uid
    let url := get_project_url S p ["c", commit, "flag"] true true
    let response := S.flagResponseAt url data
    (commit_status_from_pagure_dict response.flag (some response.uid),
      [Request.post url data])

/-- A small concrete forge oracle, used to instantiate theorems with
hypotheses on concrete inputs. -/
def sampleService : PagureService where
  apiBase := ["api", "0"]
  authUsername := "alice"
  read_only := false
  infoAt := fun _ => ⟨"alice", none, ⟨["a"], ["b"], ["c"], ["d"]⟩⟩
  okAt := fun _ => true
  forksFor := fun _ => []
  tagsAt := fun _ => [("v1.0", "abc123"), ("v2.0", "def456")]
  rawAt := fun _ => RawOutcome.resp (some ⟨true, "OK", "content"⟩)
  flagResponseAt := fun _ _ => ⟨⟨"sha1", "d", "success", "ctx", "u"⟩, "uid-1"⟩
  pr_create := fun _ _ _ _ _ => (⟨0⟩, [])

/-- Concrete read-only substitutes for instantiating theorems. -/
def sampleRO : GitProjectReadOnly where
  create_pr := fun _ _ _ _ _ _ => ⟨7⟩
  fork_create := fun p => p
  set_commit_status := fun _ _ _ _ _ _ _ _ => ⟨"c", "d", "s", "x", "u", none⟩

/-- A concrete non-fork handle. -/
def sampleProject : PagureProject :=
  ⟨"myrepo", some "rpms", some "alice", false, false⟩

/-- Filtering the tag list for a name that is not among the keys yields
nothing. -/
theorem tags_filter_eq_nil (name : String) :
    ∀ l : List (String × String), name ∉ l.map Prod.fst →
      (l.map fun nc => GitTag.mk nc.1 nc.2).filter (fun g => g.name == name) = [] := by
  intro l
  induction l with
  | nil => intro _; rfl
  | cons a rest ih =>
      rcases a with ⟨k, v⟩
      intro h
      simp only [List.map_cons, List.mem_cons, not_or] at h
      have hk : (k == name) = false := beq_false_of_ne fun hkn => h.1 hkn.symm
      simp [List.filter_cons, hk, ih h.2]

/-- A failed lookup in the dict view means no list-view entry has that
name. -/
theorem tags_lookup_none (name : String) :
    ∀ l : List (String × String),
      (l.map fun nc => (nc.1, GitTag.mk nc.1 nc.2)).lookup name = none →
      (l.map fun nc => GitTag.mk nc.1 nc.2).filter (fun g => g.name == name) = [] := by
  intro l
  induction l with
  | nil => intro _; rfl
  | cons a rest ih =>
      rcases a with ⟨k, v⟩
      intro h
      rw [List.map_cons, List.lookup_cons] at h
      by_cases hk : name = k
      · simp [hk] at h
      · have hk2 : (name == k) = false := beq_false_of_ne hk
        simp only [hk2, cond_false, if_false, Bool.false_eq_true] at h
        have hk3 : (k == name) = false := beq_false_of_ne fun hkn => hk hkn.symm
        simp [List.filter_cons, hk3, ih h]

/-- A successful lookup in the dict view returns a tag carrying the
looked-up name, and that tag is the unique list-view entry with the
name (keys are distinct, as in a JSON object). -/
theorem tags_lookup_some (name : String) (t : GitTag) :
    ∀ l : List (String × String), (l.map Prod.fst).Nodup →
      (l.map fun nc => (nc.1, GitTag.mk nc.1 nc.2)).lookup name = some t →
      t.name = name ∧
        (l.map fun nc => GitTag.mk nc.1 nc.2).filter (fun g => g.name == name) = [t] := by
  intro l
  induction l with
  | nil => intro _ h; cases h
  | cons a rest ih =>
      rcases a with ⟨k, v⟩
      intro hn h
      simp only [List.map_cons, List.nodup_cons] at hn
      rw [List.map_cons, List.lookup_cons] at h
      by_cases hk : name = k
      · subst hk
        simp only [beq_self_eq_true, if_true] at h
        have ht : t = GitTag.mk name v := by
          cases h
          rfl
        subst ht
        refine ⟨rfl, ?_⟩
        simp only [List.map_cons, List.filter_cons]
        simp [tags_filter_eq_nil name rest hn.1]
      · have hk2 : (name == k) = false := beq_false_of_ne hk
        simp only [hk2, if_false, Bool.false_eq_true] at h
        obtain ⟨h1, h2⟩ := ih hn.2 h
        have hk3 : (k == name) = false := beq_false_of_ne fun hkn => hk hkn.symm
        exact ⟨h1, by simp [List.filter_cons, hk3, h2]⟩

/-- `get_project_url`, rewritten as one append chain: API base when
requested, then the fork part exactly when the handle is a fork and the
caller asked for it, then namespace (when present), repo and the extra
segments. -/
theorem get_project_url_eq (S : PagureService) (p : PagureProject)
    (args : List String) (afp aep : Bool) :
    get_project_url S p args afp aep =
      (if aep then S.apiBase else []) ++
        (if p.is_fork && afp then ["fork", p.user_ S] else []) ++
        p.namespace_.toList ++ p.repo :: args := by
  unfold get_project_url get_api_url
  cases h : p.is_fork && afp <;> cases p.namespace_ <;>
    simp [List.filterMap_append, List.filterMap_map, Function.comp_def]

/-- C1: for a non-fork handle the built URL is exactly base, namespace,
repo and args for either value of `add_fork_part` — hence, when no other
segment is literally `"fork"`, no fork segment occurs; for a fork handle
with `add_fork_part = true` the segments `"fork"`, username come
immediately before the namespace and repo segments. -/
theorem C1_project_url_fork_segments (S : PagureService) (p : PagureProject)
    (args : List String) (afp aep : Bool) :
    (p.is_fork = false →
      get_project_url S p args afp aep =
        (if aep then S.apiBase else []) ++ p.namespace_.toList ++ p.repo :: args) ∧
    (p.is_fork = false → "fork" ∉ S.apiBase → p.namespace_ ≠ some "fork" →
      p.repo ≠ "fork" → "fork" ∉ args →
      "fork" ∉ get_project_url S p args afp aep) ∧
    (p.is_fork = true → afp = true →
      get_project_url S p args afp aep =
        (if aep then S.apiBase else []) ++
          "fork" :: p.user_ S :: (p.namespace_.toList ++ p.repo :: args)) := by
  refine ⟨fun hf => ?_, fun hf hb hn hr ha => ?_, fun hf hafp => ?_⟩
  · rw [get_project_url_eq, hf]
    simp
  · rw [get_project_url_eq, hf]
    simp only [Bool.false_and, if_neg Bool.false_ne_true, List.nil_append,
      List.append_assoc, List.mem_append, List.mem_cons]
    rintro (h | h | h | h)
    · split at h
      · exact hb h
      · simp at h
    · cases hno : p.namespace_ with
      | none => rw [hno] at h; simp at h
      | some ns =>
          rw [hno] at h
          simp only [Option.toList_some, List.mem_singleton] at h
          exact hn (by rw [hno, h])
    · exact hr h.symm
    · exact ha h
  · rw [get_project_url_eq, hf, hafp]
    simp

/-- C1 witness: the theorem instantiated at a concrete non-fork handle
(all hypotheses discharged) and at its fork counterpart. -/
theorem C1_project_url_fork_segments_witness :
    get_project_url sampleService sampleProject ["git", "tags"] true true =
      ["api", "0", "rpms", "myrepo", "git", "tags"] ∧
    "fork" ∉ get_project_url sampleService sampleProject ["git", "tags"] true true ∧
    get_project_url sampleService
        ⟨"myrepo", some "rpms", some "alice", true, false⟩ ["git", "tags"] true true =
      ["api", "0", "fork", "alice", "rpms", "myrepo", "git", "tags"] := by
  have h1 := C1_project_url_fork_segments sampleService sampleProject
    ["git", "tags"] true true
  have h2 := C1_project_url_fork_segments sampleService
    ⟨"myrepo", some "rpms", some "alice", true, false⟩ ["git", "tags"] true true
  refine ⟨?_, ?_, ?_⟩
  · have := h1.1 rfl
    simpa [sampleService, sampleProject] using this
  · exact h1.2.1 rfl (by decide) (by decide) (by decide) (by decide)
  · have := h2.2.2 rfl rfl
    simpa [sampleService, PagureProject.user_] using this

/-- C2: merge-capable users are a subset of close-capable users — the
close set unions the admin, commit, ticket and owner lists while the
merge set unions only admin, commit and owner. -/
theorem C2_merge_subset_close (S : PagureService) (p : PagureProject) :
    (who_can_merge_pr S p).1 ⊆ (who_can_close_issue S p).1 := by
  simp only [who_can_merge_pr, who_can_close_issue, get_project_info]
  intro x hx
  simp only [Finset.mem_union] at hx ⊢
  tauto

/-- C4: `commit_comment` raises `OperationNotSupported` for every
argument and never returns a value. -/
theorem C4_commit_comment_always_raises (commit body : String)
    (filename : Option String) (row : Option Int) :
    commit_comment commit body filename row =
      Except.error (PyError.operationNotSupported
        "Commit comments are not supported on Pagure.") ∧
    ∀ c : CommitComment, commit_comment commit body filename row ≠ Except.ok c := by
  exact ⟨rfl, fun c => by simp [commit_comment]⟩

/-- C7: `get_fork` on a handle that is itself a fork raises
`OgrException` with an empty request log, i.e. before any forge query,
for either value of `create`. -/
theorem C7_get_fork_on_fork_raises (RO : GitProjectReadOnly) (S : PagureService)
    (p : PagureProject) (create : Bool) (h : p.is_fork = true) :
    get_fork RO S p create =
      (Except.error (PyError.ogrException "Cannot create fork from fork."), []) := by
  simp [get_fork, h]

/-- C7 witness: a concrete fork handle. -/
theorem C7_get_fork_on_fork_raises_witness :
    get_fork sampleRO sampleService
        ⟨"myrepo", some "rpms", some "alice", true, false⟩ true =
      (Except.error (PyError.ogrException "Cannot create fork from fork."), []) :=
  C7_get_fork_on_fork_raises sampleRO sampleService
    ⟨"myrepo", some "rpms", some "alice", true, false⟩ true rfl

/-- C8: on a read-only handle, `create_pr`, `fork_create` and
`set_commit_status` each return the read-only substitute's result with an
empty request log — in particular no POST is issued. -/
theorem C8_readonly_substitution (RO : GitProjectReadOnly) (S : PagureService)
    (p : PagureProject) (title body target_branch source_branch : String)
    (fork_username : Option String)
    (commit state target_url description context : String)
    (percent : Option Int) (uid : Option String) (h : p.read_only = true) :
    create_pr RO S p title body target_branch source_branch fork_username =
      (RO.create_pr p title body target_branch source_branch fork_username, []) ∧
    fork_create RO S p = (RO.fork_create p, []) ∧
    set_commit_status RO S p commit state target_url description context percent uid =
      (RO.set_commit_status p commit state target_url description context percent uid,
        []) := by
  refine ⟨?_, ?_, ?_⟩ <;> simp [create_pr, fork_create, set_commit_status, h]

/-- C8 witness: a concrete read-only handle; all three operations return
the substitute's value and issue no request. -/
theorem C8_readonly_substitution_witness :
    create_pr sampleRO sampleService
        ⟨"myrepo", some "rpms", some "alice", false, true⟩ "t" "b" "main" "feat" none =
      (⟨7⟩, []) ∧
    fork_create sampleRO sampleService
        ⟨"myrepo", some "rpms", some "alice", false, true⟩ =
      (⟨"myrepo", some "rpms", some "alice", false, true⟩, []) ∧
    set_commit_status sampleRO sampleService
        ⟨"myrepo", some "rpms", some "alice", false, true⟩
        "sha1" "success" "u" "d" "ctx" none none =
      (⟨"c", "d", "s", "x", "u", none⟩, []) := by
  have h := C8_readonly_substitution sampleRO sampleService
    ⟨"myrepo", some "rpms", some "alice", false, true⟩
    "t" "b" "main" "feat" none "sha1" "success" "u" "d" "ctx" none none rfl
  simpa [sampleRO] using h

/-- C3 counterexample: `percent = 0` is a provided argument
(`(some 0).isSome`), yet the payload carries no `percent` key, because
the source guards with Python truthiness (`if percent:`), not with
`is not None`. -/
theorem C3_counterexample_percent_zero :
    (some (0 : Int)).isSome = true ∧
    "percent" ∉
      (set_commit_status_data "success" "u" "d" "ctx" (some 0) none).map Prod.fst := by
  exact ⟨rfl, by decide⟩

/-- C3 (amended): the payload always starts with the four keys
`username`, `comment`, `url`, `status` bound to context, description,
target URL and state; `percent`/`uid` are appended exactly when provided
and truthy (nonzero, nonempty); with neither provided the key list is
exactly the four; and on a non-read-only handle `set_commit_status`
POSTs this payload and builds the `CommitFlag` from the response's
`flag` object with the response's top-level `uid`. -/
theorem C3_set_commit_status_payload (RO : GitProjectReadOnly)
    (S : PagureService) (p : PagureProject)
    (commit state target_url description context : String)
    (percent : Option Int) (uid : Option String) (h : p.read_only = false) :
    set_commit_status_data state target_url description context percent uid =
      [("username", PV.s context), ("comment", PV.s description),
        ("url", PV.s target_url), ("status", PV.s state)] ++
        (percent.toList.filter (fun pc => pc != 0)).map (fun pc => ("percent", PV.i pc)) ++
        (uid.toList.filter (fun u => u != "")).map (fun u => ("uid", PV.s u)) ∧
    ("percent" ∈
        (set_commit_status_data state target_url description context percent uid).map
          Prod.fst ↔
      pyTruthyInt percent = true) ∧
    ("uid" ∈
        (set_commit_status_data state target_url description context percent uid).map
          Prod.fst ↔
      pyTruthyStr uid = true) ∧
    (percent = none → uid = none →
      (set_commit_status_data state target_url description context percent uid).map
          Prod.fst =
        ["username", "comment", "url", "status"]) ∧
    set_commit_status RO S p commit state target_url description context percent uid =
      (commit_status_from_pagure_dict
          (S.flagResponseAt (get_project_url S p ["c", commit, "flag"] true true)
            (set_commit_status_data state target_url description context percent
              uid)).flag
          (some
            (S.flagResponseAt (get_project_url S p ["c", commit, "flag"] true true)
              (set_commit_status_data state target_url description context percent
                uid)).uid),
        [Request.post (get_project_url S p ["c", commit, "flag"] true true)
          (set_commit_status_data state target_url description context percent uid)]) := by
  refine ⟨?_, ?_, ?_, ?_, ?_⟩
  · rcases percent with _ | pc <;> rcases uid with _ | u
    · simp [set_commit_status_data]
    · by_cases hu : u = "" <;> simp [set_commit_status_data, hu]
    · by_cases hpc : pc = 0 <;> simp [set_commit_status_data, hpc]
    · by_cases hpc : pc = 0 <;> by_cases hu : u = "" <;>
        simp [set_commit_status_data, hpc, hu]
  · rcases percent with _ | pc <;> rcases uid with _ | u
    · simp [set_commit_status_data, pyTruthyInt]
    · by_cases hu : u = "" <;> simp [set_commit_status_data, pyTruthyInt, hu]
    · by_cases hpc : pc = 0 <;> simp [set_commit_status_data, pyTruthyInt, hpc]
    · by_cases hpc : pc = 0 <;> by_cases hu : u = "" <;>
        simp [set_commit_status_data, pyTruthyInt, hpc, hu]
  · rcases percent with _ | pc <;> rcases uid with _ | u
    · simp [set_commit_status_data, pyTruthyStr]
    · by_cases hu : u = "" <;> simp [set_commit_status_data, pyTruthyStr, hu]
    · by_cases hpc : pc = 0 <;> simp [set_commit_status_data, pyTruthyStr, hpc]
    · by_cases hpc : pc = 0 <;> by_cases hu : u = "" <;>
        simp [set_commit_status_data, pyTruthyStr, hpc, hu]
  · rintro rfl rfl
    simp [set_commit_status_data]
  · simp [set_commit_status, h]

/-- C3 witness: with neither `percent` nor `uid` provided the payload has
exactly the four keys, and the flag returned on a non-read-only handle is
built from the oracle's response. -/
theorem C3_set_commit_status_payload_witness :
    (set_commit_status_data "success" "u" "d" "ctx" none none).map Prod.fst =
      ["username", "comment", "url", "status"] ∧
    (set_commit_status sampleRO sampleService sampleProject
        "sha1" "success" "u" "d" "ctx" none none).1 =
      ⟨"sha1", "d", "success", "ctx", "u", some "uid-1"⟩ := by
  have h := C3_set_commit_status_payload sampleRO sampleService sampleProject
    "sha1" "success" "u" "d" "ctx" none none rfl
  refine ⟨h.2.2.2.1 rfl rfl, ?_⟩
  rw [h.2.2.2.2]
  rfl

/-- C5: `get_sha_from_tag` raises `PagureAPIException` exactly when the
tag is absent from the `get_tags_dict()` mapping — it never returns a
value then — and returns the stored commit SHA when present. -/
theorem C5_get_sha_from_tag_lookup (S : PagureService) (p : PagureProject)
    (tag_name : String) :
    ((get_tags_dict S p).1.lookup tag_name = none →
      (get_sha_from_tag S p tag_name).1 =
        Except.error
          (PyError.pagureAPIException ("Tag " ++ tag_name ++ " not found.")) ∧
      ∀ sha, (get_sha_from_tag S p tag_name).1 ≠ Except.ok sha) ∧
    (∀ t, (get_tags_dict S p).1.lookup tag_name = some t →
      (get_sha_from_tag S p tag_name).1 = Except.ok t.commit_sha) := by
  constructor
  · intro hnone
    constructor
    · simp only [get_sha_from_tag, get_tags_dict] at hnone ⊢
      rw [hnone]
    · intro sha
      simp only [get_sha_from_tag, get_tags_dict] at hnone ⊢
      rw [hnone]
      simp
  · intro t ht
    simp only [get_sha_from_tag, get_tags_dict] at ht ⊢
    rw [ht]

/-- C5 witness: on a concrete tag mapping, an absent tag raises and a
present tag returns its SHA. -/
theorem C5_get_sha_from_tag_lookup_witness :
    (get_sha_from_tag sampleService sampleProject "nonexistent").1 =
      Except.error (PyError.pagureAPIException "Tag nonexistent not found.") ∧
    (get_sha_from_tag sampleService sampleProject "v1.0").1 =
      Except.ok "abc123" := by
  constructor
  · exact ((C5_get_sha_from_tag_lookup sampleService sampleProject
      "nonexistent").1 (by decide)).1
  · exact (C5_get_sha_from_tag_lookup sampleService sampleProject "v1.0").2
      ⟨"v1.0", "abc123"⟩ (by decide)

/-- C6: `get_file_content` wraps a raised raw-request error into
`FileNotFoundError` carrying the cause, raises `FileNotFoundError` on an
absent response or reason `"NOT FOUND"`, and returns the decoded content
otherwise. -/
theorem C6_get_file_content_errors (S : PagureService) (p : PagureProject)
    (path ref : String) :
    (∀ ex,
      S.rawAt (get_project_url S p ["raw", ref, "f", path] true false) =
          RawOutcome.raised ex →
        (get_file_content S p path ref).1 =
          Except.error
            (PyError.fileNotFoundError
              ("Problem with getting file " ++ path ++ " on " ++ ref) (some ex))) ∧
    (S.rawAt (get_project_url S p ["raw", ref, "f", path] true false) =
        RawOutcome.resp none →
      (get_file_content S p path ref).1 =
        Except.error
          (PyError.fileNotFoundError
            ("File " ++ path ++ " on " ++ ref ++ " not found") none)) ∧
    (∀ r,
      S.rawAt (get_project_url S p ["raw", ref, "f", path] true false) =
          RawOutcome.resp (some r) →
        r.reason = "NOT FOUND" →
        (get_file_content S p path ref).1 =
          Except.error
            (PyError.fileNotFoundError
              ("File " ++ path ++ " on " ++ ref ++ " not found") none)) ∧
    (∀ r,
      S.rawAt (get_project_url S p ["raw", ref, "f", path] true false) =
          RawOutcome.resp (some r) →
        r.reason ≠ "NOT FOUND" →
        (get_file_content S p path ref).1 = Except.ok r.content) := by
  refine ⟨fun ex hex => ?_, fun hnone => ?_, fun r hr hnf => ?_, fun r hr hnf => ?_⟩
  · simp [get_file_content, hex]
  · simp [get_file_content, hnone]
  · simp [get_file_content, hr, hnf]
  · simp [get_file_content, hr, hnf]

/-- C6 witness: the four outcomes on concrete services. -/
theorem C6_get_file_content_errors_witness :
    (get_file_content
        { sampleService with rawAt := fun _ => RawOutcome.raised "boom" }
        sampleProject "f.txt" "master").1 =
      Except.error
        (PyError.fileNotFoundError "Problem with getting file f.txt on master"
          (some "boom")) ∧
    (get_file_content { sampleService with rawAt := fun _ => RawOutcome.resp none }
        sampleProject "f.txt" "master").1 =
      Except.error (PyError.fileNotFoundError "File f.txt on master not found" none) ∧
    (get_file_content
        { sampleService with
          rawAt := fun _ => RawOutcome.resp (some ⟨false, "NOT FOUND", ""⟩) }
        sampleProject "f.txt" "master").1 =
      Except.error (PyError.fileNotFoundError "File f.txt on master not found" none) ∧
    (get_file_content sampleService sampleProject "f.txt" "master").1 =
      Except.ok "content" := by
  refine ⟨?_, ?_, ?_, ?_⟩
  · exact (C6_get_file_content_errors
      { sampleService with rawAt := fun _ => RawOutcome.raised "boom" }
      sampleProject "f.txt" "master").1 "boom" rfl
  · exact (C6_get_file_content_errors
      { sampleService with rawAt := fun _ => RawOutcome.resp none }
      sampleProject "f.txt" "master").2.1 rfl
  · exact (C6_get_file_content_errors
      { sampleService with
        rawAt := fun _ => RawOutcome.resp (some ⟨false, "NOT FOUND", ""⟩) }
      sampleProject "f.txt" "master").2.2.1 ⟨false, "NOT FOUND", ""⟩ rfl rfl
  · exact (C6_get_file_content_errors sampleService sampleProject
      "f.txt" "master").2.2.2 ⟨true, "OK", "content"⟩ rfl (by decide)

/-- C9: when the response's tag keys are distinct (a JSON object), the
list and dict views of tags are consistent: a dict entry carries the
looked-up name and equals the unique list entry with that name, a missing
dict entry means no list entry has the name, and both views list exactly
the response's tag names in order. -/
theorem C9_tags_views_consistent (S : PagureService) (p : PagureProject)
    (hn : ((S.tagsAt (get_project_url S p ["git", "tags"] true true)).map
        Prod.fst).Nodup) :
    (∀ name t, (get_tags_dict S p).1.lookup name = some t →
      t.name = name ∧ (get_tags S p).1.filter (fun g => g.name == name) = [t]) ∧
    (∀ name, (get_tags_dict S p).1.lookup name = none →
      (get_tags S p).1.filter (fun g => g.name == name) = []) ∧
    (get_tags_dict S p).1.map Prod.fst =
      (S.tagsAt (get_project_url S p ["git", "tags"] true true)).map Prod.fst ∧
    (get_tags S p).1.map GitTag.name =
      (S.tagsAt (get_project_url S p ["git", "tags"] true true)).map Prod.fst := by
  refine ⟨fun name t ht => ?_, fun name hnone => ?_, ?_, ?_⟩
  · exact tags_lookup_some name t _ hn ht
  · exact tags_lookup_none name _ hnone
  · simp [get_tags_dict, List.map_map, Function.comp_def]
  · simp [get_tags, List.map_map, Function.comp_def]

/-- C9 witness: on a concrete two-tag response both views agree. -/
theorem C9_tags_views_consistent_witness :
    ((get_tags_dict sampleService sampleProject).1.lookup "v1.0" =
      some ⟨"v1.0", "abc123"⟩) ∧
    (get_tags sampleService sampleProject).1.filter (fun g => g.name == "v1.0") =
      [⟨"v1.0", "abc123"⟩] ∧
    (get_tags sampleService sampleProject).1.map GitTag.name = ["v1.0", "v2.0"] := by
  have h := C9_tags_views_consistent sampleService sampleProject (by decide)
  refine ⟨by decide, (h.1 "v1.0" ⟨"v1.0", "abc123"⟩ (by decide)).2, ?_⟩
  exact h.2.2.2.trans (by decide)

/-- C10: `is_forked` returns a boolean when the user's fork does not
exist, or exists with a parent in its info; but when the fork exists and
its info reports no parent, the `parent` property is `None` and
`is_forked` raises `AttributeError` instead of returning `False`. -/
theorem C10_is_forked_parent_precondition (S : PagureService) (p : PagureProject) :
    (S.okAt (get_project_url S (construct_fork_project S p) [] true true) = true →
      (S.infoAt (get_project_url S (construct_fork_project S p) [] true true)).parent =
          none →
      (is_forked S p).1 = Except.error PyError.attributeError) ∧
    (S.okAt (get_project_url S (construct_fork_project S p) [] true true) = false →
      (is_forked S p).1 = Except.ok false) ∧
    (∀ pi,
      S.okAt (get_project_url S (construct_fork_project S p) [] true true) = true →
      (S.infoAt (get_project_url S (construct_fork_project S p) [] true true)).parent =
          some pi →
      ∃ b, (is_forked S p).1 = Except.ok b) := by
  refine ⟨fun hok hpar => ?_, fun hok => ?_, fun pi hok hpar => ?_⟩
  · simp [is_forked, exists_, parent, get_is_fork_from_api, get_project_info,
      hok, hpar]
  · simp [is_forked, exists_, hok]
  · have hvalue : (is_forked S p).1 =
        Except.ok (S.okAt (get_project_url S
          (PagureProject.fromService S (construct_fork_project S p).repo
            pi.namespace_ none false) [] true true)) := by
      simp [is_forked, exists_, parent, get_is_fork_from_api, get_project_info,
        hok, hpar]
    exact ⟨_, hvalue⟩

/-- C10 witness: the three behaviours on concrete oracles — fork exists
without a parent (raises), fork does not exist, fork exists with a
parent. -/
theorem C10_is_forked_parent_precondition_witness :
    (is_forked sampleService sampleProject).1 = Except.error PyError.attributeError ∧
    (is_forked { sampleService with okAt := fun _ => false } sampleProject).1 =
      Except.ok false ∧
    ∃ b,
      (is_forked
          { sampleService with
            infoAt := fun _ =>
              ⟨"alice", some ⟨some "rpms"⟩, ⟨["a"], ["b"], ["c"], ["d"]⟩⟩ }
          sampleProject).1 =
        Except.ok b := by
  refine ⟨?_, ?_, ?_⟩
  · exact (C10_is_forked_parent_precondition sampleService sampleProject).1 rfl rfl
  · exact (C10_is_forked_parent_precondition
      { sampleService with okAt := fun _ => false } sampleProject).2.1 rfl
  · exact (C10_is_forked_parent_precondition
      { sampleService with
        infoAt := fun _ =>
          ⟨"alice", some ⟨some "rpms"⟩, ⟨["a"], ["b"], ["c"], ["d"]⟩⟩ }
      sampleProject).2.2 ⟨some "rpms"⟩ rfl rfl
